import Mathlib

/-!
# BleFinder — verification of the connection-lifecycle manager and UI helpers

Shallow embedding of the repository's three source files:

* `src/hooks/useBleManager.ts` — the scan / connect / disconnect / reconnect /
  switch state machine (`scanDevices`, `getServicesAndCharacteristics`,
  `connectToDevice`, `handleDisconnect`, the `onDeviceDisconnected`
  subscription effect, `switchToDevice`, with `MAX_RECONNECT_ATTEMPTS = 3`
  and a 2000 ms retry delay).
* `App.tsx` — `getBatteryLevel` (service `180F`, characteristic `2A19`,
  `parseInt(value, 16)`).
* `DeviceItem.tsx` — `calculateDistance` and the battery text
  `batteryLevel ? batteryLevel + percent : NA`.

Modelling conventions, following the spec's own design note ("model as an
explicit state object passed through the lifecycle manager's operations,
with state transitions expressed as pure functions"):

* React `useState` setters are modelled as immediate updates to an explicit
  `BleState` record; each operation is a pure function
  `BleState → BleState × List Ev`, where the `Ev` trace records, in program
  order, every state write, BLE library call, and `setTimeout` scheduling.
  Where the deferral of a setter is observable the model keeps it: inside
  `switchToDevice`, the `handleDisconnect` closure was created in a render
  before the call, so its guard reads the `shouldReconnect` and
  `reconnectAttempts` values captured there — `setShouldReconnect(false)`
  has not landed yet — and the disconnect leg is therefore run on the
  pre-call state.
* The BLE library is an oracle (`Effects`): `connectOk d a` is the outcome of
  the combined `connectToDevice` + `discoverAllServicesAndCharacteristics`
  await pair for attempt number `a`, `cancelOk` the outcome of
  `cancelDeviceConnection`, `services` the outcome of `device.services()`
  (`none` = the call threw), and `chars u` the outcome of
  `service.characteristics()` for the service with uuid `u`.
* `setTimeout(cb, d)` is modelled as a `scheduleTimer` trace event; the
  timer-driven retry chain of `connectToDevice` is replayed by
  `connectTimeline`, which fires each scheduled retry `d` ms after the
  failure that scheduled it.
* JavaScript numbers are modelled as `ℚ`; `Math.pow(x, 7.7095)` (a
  transcendental the rationals cannot express) is an explicit function
  parameter `powR`, and `toFixed(2)` followed by `parseFloat` is modelled as
  rounding to two decimals (`toFixed2`).
* `parseInt(s, 16)` is modelled by `parseIntHex`, with `NaN` as `none`.
* JavaScript truthiness on strings (`device.name`, `characteristic.value`)
  treats the empty string as falsy; on numbers it treats `0` as falsy.
-/

namespace BleFinder

/-- A discovered BLE device, with the fields the repository reads
(`id`, `name`, `rssi`, `txPowerLevel`). `name`, `rssi` and `txPowerLevel`
are nullable in `react-native-ble-plx`. -/
structure Device where
  id : String
  name : Option String
  rssi : Option ℚ
  txPowerLevel : Option ℚ
deriving DecidableEq

/-- A GATT service (only its uuid is used by the repository). -/
structure Service where
  uuid : String
deriving DecidableEq

/-- A GATT characteristic: uuid and nullable value string. -/
structure Characteristic where
  uuid : String
  value : Option String
deriving DecidableEq

/-- `DeviceDetails` from `useBleManager.ts`: the discovered services plus an
optional map from service uuid to that service's characteristics (a JS
object, modelled as an association list keyed by uuid). -/
structure DeviceDetails where
  services : List Service
  characteristics : Option (List (String × List Characteristic))
deriving DecidableEq

/-- `const MAX_RECONNECT_ATTEMPTS = 3` (useBleManager.ts line 19). -/
def MAX_RECONNECT_ATTEMPTS : Nat := 3

/-- The reconnect delay passed to every `setTimeout` in the hook (2000 ms). -/
def RECONNECT_DELAY_MS : Nat := 2000

/-- The hook's state: the six `useState` cells of `useBleManager`. -/
structure BleState where
  devices : List Device
  connectedDevice : Option String
  deviceDetails : Option DeviceDetails
  isConnecting : Bool
  shouldReconnect : Bool
  reconnectAttempts : Nat
deriving DecidableEq

/-- The payload of a `setTimeout` in the hook: both the retry timer in
`connectToDevice` (attempt `a+1`) and the reconnect timer in
`handleDisconnect` (attempt `0`, the default argument) invoke
`connectToDevice(deviceId, attempts)`. -/
inductive TimerAction where
  | connectTo (deviceId : String) (attempts : Nat)
deriving DecidableEq

/-- Trace events: every state write, BLE library call and timer scheduling an
operation performs, in program order. -/
inductive Ev where
  | setShouldReconnect (b : Bool)
  | setConnectedDevice (d : Option String)
  | setDeviceDetails (d : Option DeviceDetails)
  | setIsConnecting (b : Bool)
  | setReconnectAttempts (n : Nat)
  | bleConnectAttempt (deviceId : String) (ok : Bool)
  | bleCancelConnection (deviceId : String) (ok : Bool)
  | stopScan
  | scheduleTimer (delayMs : Nat) (action : TimerAction)
deriving DecidableEq

/-- Outcomes of the BLE library calls (the external collaborator). -/
structure Effects where
  connectOk : String → Nat → Bool
  cancelOk : String → Bool
  services : Option (List Service)
  chars : String → Option (List Characteristic)

/-- JS truthiness of `device.name` (`null` and `""` are falsy). -/
def hasName (device : Device) : Bool :=
  match device.name with
  | some n => n != ""
  | none => false

/-- `isDuplicate` (useBleManager.ts lines 21-22):
`devices.findIndex(device => nextDevice.id === device.id) > -1`. -/
def isDuplicate (devices : List Device) (nextDevice : Device) : Bool :=
  (devices.findIdx? (fun device => nextDevice.id == device.id)).isSome

/-- One invocation of the `startDeviceScan` callback: an error flag and a
nullable device. -/
structure ScanEvent where
  error : Bool
  device : Option Device
deriving DecidableEq

/-- The body of the scan callback (useBleManager.ts lines 28-41): on error,
return; if the device is truthy and named and not already present, append. -/
def onScanEvent (devices : List Device) (ev : ScanEvent) : List Device :=
  if ev.error then devices
  else
    match ev.device with
    | some device =>
      if hasName device then
        if ! isDuplicate devices device then devices ++ [device]
        else devices
      else devices
    | none => devices

/-- `scanDevices` (lines 24-27): the three state clears performed before
`startDeviceScan` installs the advertisement listener. -/
def scanDevices (s : BleState) : BleState :=
  { s with devices := [], connectedDevice := none, deviceDetails := none }

/-- A whole scan: clear state, then deliver a sequence of advertisement
events to the installed listener. -/
def scanRun (s : BleState) (events : List ScanEvent) : BleState :=
  let s0 := scanDevices s
  { s0 with devices := events.foldl onScanEvent s0.devices }

/-- `getServicesAndCharacteristics` (lines 44-73). If `device.services()`
throws, the outer catch only logs (state untouched). Otherwise each
service's characteristics are fetched; a per-service failure is caught and
stores `[]` for that service; finally `deviceDetails` is set. -/
def getServicesAndCharacteristics (fx : Effects) (s : BleState) : BleState × List Ev :=
  match fx.services with
  | none => (s, [])
  | some services =>
    let characteristicsByServiceUUID :=
      services.map (fun service => (service.uuid, (fx.chars service.uuid).getD []))
    let dd : DeviceDetails :=
      { services := services, characteristics := some characteristicsByServiceUUID }
    ({ s with deviceDetails := some dd }, [Ev.setDeviceDetails (some dd)])

/-- `connectToDevice` (lines 75-95), one attempt. `fx.connectOk deviceId
attempts` is the joint outcome of the `connectToDevice` and
`discoverAllServicesAndCharacteristics` awaits. On success: set connected
device, stop the scan, fetch details, reset the attempt counter. On failure:
if `attempts < MAX_RECONNECT_ATTEMPTS - 1`, schedule a retry in 2000 ms with
`attempts + 1`. Either way the `finally` clears `isConnecting`. -/
def connectToDevice (fx : Effects) (deviceId : String) (attempts : Nat) (s : BleState) :
    BleState × List Ev :=
  let s1 := { s with isConnecting := true }
  if fx.connectOk deviceId attempts then
    let s2 := { s1 with connectedDevice := some deviceId }
    let r3 := getServicesAndCharacteristics fx s2
    let s4 := { r3.1 with reconnectAttempts := 0 }
    ({ s4 with isConnecting := false },
      [Ev.setIsConnecting true, Ev.bleConnectAttempt deviceId true,
       Ev.setConnectedDevice (some deviceId), Ev.stopScan]
        ++ r3.2 ++ [Ev.setReconnectAttempts 0, Ev.setIsConnecting false])
  else
    let retry := attempts < MAX_RECONNECT_ATTEMPTS - 1
    ({ s1 with isConnecting := false },
      [Ev.setIsConnecting true, Ev.bleConnectAttempt deviceId false]
        ++ (if retry then
              [Ev.scheduleTimer RECONNECT_DELAY_MS (TimerAction.connectTo deviceId (attempts + 1))]
            else [])
        ++ [Ev.setIsConnecting false])

/-- `handleDisconnect` (lines 97-112): optimistically clear connected-device
and detail state, await `cancelDeviceConnection`; if that succeeds and
`shouldReconnect && reconnectAttempts < MAX_RECONNECT_ATTEMPTS`, increment
the counter and schedule `connectToDevice(deviceId)` in 2000 ms. If the
cancel throws, the catch only logs. -/
def handleDisconnect (fx : Effects) (deviceId : String) (s : BleState) : BleState × List Ev :=
  let s1 := { s with connectedDevice := none, deviceDetails := none }
  let ev1 : List Ev := [Ev.setConnectedDevice none, Ev.setDeviceDetails none]
  if fx.cancelOk deviceId then
    if s1.shouldReconnect ∧ s1.reconnectAttempts < MAX_RECONNECT_ATTEMPTS then
      ({ s1 with reconnectAttempts := s1.reconnectAttempts + 1 },
        ev1 ++ [Ev.bleCancelConnection deviceId true,
                Ev.setReconnectAttempts (s1.reconnectAttempts + 1),
                Ev.scheduleTimer RECONNECT_DELAY_MS (TimerAction.connectTo deviceId 0)])
    else (s1, ev1 ++ [Ev.bleCancelConnection deviceId true])
  else (s1, ev1 ++ [Ev.bleCancelConnection deviceId false])

/-- The `onDeviceDisconnected` subscription (lines 114-131): the effect keeps
a subscription exactly while a device is connected, so a disconnect event
for `deviceId` invokes `handleDisconnect deviceId` only when `deviceId` is
the currently connected device; otherwise it is dropped. -/
def onDeviceDisconnected (fx : Effects) (deviceId : String) (s : BleState) :
    BleState × List Ev :=
  if s.connectedDevice = some deviceId then handleDisconnect fx deviceId s
  else (s, [])

/-- `switchToDevice` (lines 133-145): emit `setShouldReconnect(false)`,
disconnect the current device if any, connect to the new device, then emit
`setShouldReconnect(true)`. `setShouldReconnect(false)` is a deferred React
state write: it does not change the `shouldReconnect` binding captured by
the `handleDisconnect` closure invoked on the next line (the closure was
created in a render before the call; its `useCallback` deps are at line
111), so the disconnect leg's guard still reads the pre-call
`s.shouldReconnect` and `s.reconnectAttempts` — the leg is run on `s`
itself. The committed `shouldReconnect` afterwards is `true` (last write
wins). -/
def switchToDevice (fx : Effects) (deviceId : String) (s : BleState) : BleState × List Ev :=
  match s.connectedDevice with
  | some currentId =>
    let r1 := handleDisconnect fx currentId s
    let r2 := connectToDevice fx deviceId 0 r1.1
    ({ r2.1 with shouldReconnect := true },
      Ev.setShouldReconnect false :: (r1.2 ++ r2.2 ++ [Ev.setShouldReconnect true]))
  | none =>
    let r2 := connectToDevice fx deviceId 0 s
    ({ r2.1 with shouldReconnect := true },
      Ev.setShouldReconnect false :: (r2.2 ++ [Ev.setShouldReconnect true]))

/-- The first retry timer scheduled in a trace, if any. -/
def scheduledRetry (tr : List Ev) : Option (Nat × String × Nat) :=
  (tr.filterMap (fun e =>
    match e with
    | Ev.scheduleTimer d (TimerAction.connectTo id a) => some (d, id, a)
    | _ => none)).head?

/-- Replay of a `connectToDevice` call together with its timer-driven retry
chain: each entry is (absolute start time in ms, that attempt's trace); a
retry scheduled with delay `d` fires `d` ms after the failure that scheduled
it. `fuel` bounds the replay length (the code's own bound is
`MAX_RECONNECT_ATTEMPTS`). -/
def connectTimeline (fx : Effects) (fuel : Nat) (deviceId : String) (attempts : Nat)
    (startTime : Nat) (s : BleState) : List (Nat × List Ev) × BleState :=
  match fuel with
  | 0 => ([], s)
  | fuel' + 1 =>
    let r := connectToDevice fx deviceId attempts s
    match scheduledRetry r.2 with
    | some (d, id, a) =>
      let rest := connectTimeline fx fuel' id a (startTime + d) r.1
      ((startTime, r.2) :: rest.1, rest.2)
    | none => ([(startTime, r.2)], r.1)

/-- Value of a hexadecimal digit character. -/
def hexDigitVal (c : Char) : Option Nat :=
  if '0' ≤ c ∧ c ≤ '9' then some (c.toNat - '0'.toNat)
  else if 'a' ≤ c ∧ c ≤ 'f' then some (c.toNat - 'a'.toNat + 10)
  else if 'A' ≤ c ∧ c ≤ 'F' then some (c.toNat - 'A'.toNat + 10)
  else none

/-- Accumulate the longest leading run of hex digits; `none` when the run is
empty (JS `parseInt` yields `NaN` then). -/
def hexDigitsVal (acc : Nat) (found : Bool) : List Char → Option Nat
  | [] => if found then some acc else none
  | c :: cs =>
    match hexDigitVal c with
    | some v => hexDigitsVal (acc * 16 + v) true cs
    | none => if found then some acc else none

/-- JS `parseInt(s, 16)`: skip whitespace, optional sign, optional `0x`/`0X`
prefix, then the longest run of hex digits; `NaN` (no digits) is `none`. -/
def parseIntHex (s : String) : Option Int :=
  let cs0 := s.data.dropWhile Char.isWhitespace
  let signed : Int × List Char :=
    match cs0 with
    | '-' :: rest => (-1, rest)
    | '+' :: rest => (1, rest)
    | _ => (1, cs0)
  let cs1 : List Char :=
    match signed.2 with
    | '0' :: 'x' :: rest => rest
    | '0' :: 'X' :: rest => rest
    | _ => signed.2
  match hexDigitsVal 0 false cs1 with
  | some n => some (signed.1 * n)
  | none => none

/-- `getBatteryLevel` (App.tsx lines 81-94): look up service `180F` in the
detail map, find characteristic `2A19`, and parse its (truthy) value as a
hexadecimal integer; any absence yields `undefined` (`none`). A `NaN` parse
is also modelled as `none`. -/
def getBatteryLevel (deviceDetails : Option DeviceDetails) : Option Int :=
  match deviceDetails with
  | none => none
  | some dd =>
    match dd.characteristics with
    | none => none
    | some cmap =>
      match cmap.lookup "180F" with
      | none => none
      | some batteryCharacteristics =>
        match batteryCharacteristics.find? (fun c => c.uuid == "2A19") with
        | none => none
        | some batteryCharacteristic =>
          match batteryCharacteristic.value with
          | none => none
          | some v => if v = "" then none else parseIntHex v

/-- The battery text of `DeviceItem` (DeviceItem.tsx line 69):
`batteryLevel ? batteryLevel + "%" : "NA"` — JS truthiness makes both
`undefined`/`NaN` (here `none`) and `0` render as `"NA"`. -/
def batteryDisplay (batteryLevel : Option Int) : String :=
  match batteryLevel with
  | some n => if n = 0 then "NA" else toString n ++ "%"
  | none => "NA"

/-- `toFixed(2)` followed by `parseFloat`: round to two decimal places. -/
def toFixed2 (q : ℚ) : ℚ := ((round (q * 100) : ℤ) : ℚ) / 100

/-- Result of `calculateDistance`: the literal `"Unknown"`, or a distance
string `q.toFixed(2) + " m"` carrying the already-rounded number `q`. -/
inductive DistanceResult where
  | unknown
  | dist (meters : ℚ)
deriving DecidableEq

/-- `const defaultTxPower = -59` (DeviceItem.tsx line 31). -/
def defaultTxPower : ℚ := -59

/-- `calculateDistance` (DeviceItem.tsx lines 28-48). `powR` models
`Math.pow(ratio, 7.7095)`; `Math.pow(ratio, 10)` is the exact tenth power. -/
def calculateDistance (powR : ℚ → ℚ) (rssi : Option ℚ) (txPower : Option ℚ) :
    DistanceResult :=
  match rssi with
  | none => DistanceResult.unknown
  | some r =>
    if r = 0 then DistanceResult.unknown
    else
      let actualTxPower := txPower.getD defaultTxPower
      if r < -100 ∨ 0 < r then DistanceResult.unknown
      else
        let ratio := r / actualTxPower
        if ratio < 1 then DistanceResult.dist (toFixed2 (ratio ^ 10))
        else
          let distance := toFixed2 (89976 / 100000 * powR ratio + 111 / 1000)
          if 1000 < distance then DistanceResult.unknown
          else DistanceResult.dist distance

/-- `true` iff the event is not a `setIsConnecting` write. -/
def notSetIsConnecting (e : Ev) : Bool :=
  match e with
  | Ev.setIsConnecting _ => false
  | _ => true

/-- Fixture: the hook's initial state. -/
def sInit : BleState :=
  { devices := [], connectedDevice := none, deviceDetails := none,
    isConnecting := false, shouldReconnect := true, reconnectAttempts := 0 }

/-- Fixture: connected to device `"A"`, auto-reconnect enabled, counter 0. -/
def sConnectedA : BleState :=
  { devices := [], connectedDevice := some "A", deviceDetails := none,
    isConnecting := false, shouldReconnect := true, reconnectAttempts := 0 }

/-- Fixture: every BLE call succeeds, discovery returns no services. -/
def fxSwitchOk : Effects :=
  { connectOk := fun _ _ => true, cancelOk := fun _ => true,
    services := some [], chars := fun _ => none }

/-- Fixture: every connect attempt fails; cancel succeeds. -/
def fxAllFail : Effects :=
  { connectOk := fun _ _ => false, cancelOk := fun _ => true,
    services := none, chars := fun _ => none }

/-- Fixture: two services, characteristic discovery failing for `"S1"` and
succeeding for `"S2"`. -/
def fxTwoServices : Effects :=
  { connectOk := fun _ _ => true, cancelOk := fun _ => true,
    services := some [{ uuid := "S1" }, { uuid := "S2" }],
    chars := fun u => if u = "S2" then some [{ uuid := "C1", value := none }] else none }

/-- Fixture: a named device with identifier `"A"`. -/
def devA : Device := { id := "A", name := some "Alpha", rssi := none, txPowerLevel := none }

/-- Fixture: a second named device with identifier `"B"`. -/
def devB : Device := { id := "B", name := some "Beta", rssi := none, txPowerLevel := none }

/-- Fixture: detail map with battery service `180F`, characteristic `2A19`,
value `"64"`. -/
def ddBattery : DeviceDetails :=
  { services := [{ uuid := "180F" }],
    characteristics := some [("180F", [{ uuid := "2A19", value := some "64" }])] }

/-- Fixture: like `ddBattery` but with characteristic value `"0"`. -/
def ddBatteryZero : DeviceDetails :=
  { services := [{ uuid := "180F" }],
    characteristics := some [("180F", [{ uuid := "2A19", value := some "0" }])] }

/-!  ## Theorems  -/

/-- Duplicate test fails exactly when the identifier is absent. -/
lemma isDuplicate_eq_false_iff (devs : List Device) (d : Device) :
    isDuplicate devs d = false ↔ ∀ x ∈ devs, d.id ≠ x.id := by
  simp [isDuplicate, List.findIdx?_eq_none_iff]

/-- Every scan-callback invocation either leaves the registry unchanged or
appends one named, previously unseen device at the end. -/
lemma onScanEvent_shape (devs : List Device) (ev : ScanEvent) :
    onScanEvent devs ev = devs
    ∨ ∃ d, ev.device = some d ∧ hasName d = true ∧ isDuplicate devs d = false
        ∧ onScanEvent devs ev = devs ++ [d] := by
  unfold onScanEvent
  cases hErr : ev.error
  · cases hDev : ev.device with
    | none => left; simp
    | some d =>
      cases hn : hasName d
      · left; simp [hn]
      · cases hdup : isDuplicate devs d
        · right; exact ⟨d, rfl, hn, hdup, by simp [hn, hdup]⟩
        · left; simp [hn, hdup]
  · left; simp

/-- The scan-callback preserves the registry invariant (unique ids, all
entries named). -/
lemma scanInv_step (devs : List Device) (ev : ScanEvent)
    (h : (devs.map Device.id).Nodup ∧ devs.all hasName = true) :
    ((onScanEvent devs ev).map Device.id).Nodup
      ∧ (onScanEvent devs ev).all hasName = true := by
  rcases onScanEvent_shape devs ev with heq | ⟨d, _, hn, hdup, heq⟩
  · rw [heq]; exact h
  · rw [heq]
    have hnotmem : d.id ∉ devs.map Device.id := by
      intro hmem
      rcases List.mem_map.mp hmem with ⟨x, hx, hxid⟩
      exact (isDuplicate_eq_false_iff devs d).mp hdup x hx hxid.symm
    constructor
    · simp [List.nodup_append, h.1, hnotmem]
    · simp [List.all_append, h.2, hn]

/-- A predicate preserved by the scan callback holds after any event fold. -/
lemma foldl_scan_inv (P : List Device → Prop)
    (step : ∀ devs ev, P devs → P (onScanEvent devs ev)) :
    ∀ (events : List ScanEvent) (devs : List Device), P devs → P (events.foldl onScanEvent devs)
  | [], _, h => h
  | ev :: evs, devs, h => foldl_scan_inv P step evs _ (step devs ev h)

/-- Claim C4: for every sequence of advertisement events delivered to an
active scan, the registry has at most one entry per device identifier and no
unnamed entry; each event either leaves the registry unchanged or appends a
new named device at the end (first-discovery order); and an advertisement
for an already-present identifier is ignored outright (first-seen data
wins, nothing is merged). -/
theorem C4_registry_invariants (s : BleState) (events : List ScanEvent) :
    (((scanRun s events).devices.map Device.id).Nodup
      ∧ (scanRun s events).devices.all hasName = true)
    ∧ (∀ devs ev, onScanEvent devs ev = devs
        ∨ ∃ d, ev.device = some d ∧ hasName d = true ∧ isDuplicate devs d = false
            ∧ onScanEvent devs ev = devs ++ [d])
    ∧ (∀ devs d, isDuplicate devs d = true →
        onScanEvent devs { error := false, device := some d } = devs) := by
  refine ⟨?_, onScanEvent_shape, ?_⟩
  · exact foldl_scan_inv
      (fun devs => (devs.map Device.id).Nodup ∧ devs.all hasName = true)
      scanInv_step events [] (by simp)
  · intro devs d hdup
    unfold onScanEvent
    cases hn : hasName d <;> simp [hn, hdup]

/-- Witness for C4 at a concrete duplicate advertisement. -/
theorem C4_registry_invariants_witness :
    isDuplicate [devA] devA = true
    ∧ onScanEvent [devA] { error := false, device := some devA } = [devA] :=
  ⟨by decide, (C4_registry_invariants sInit []).2.2 [devA] devA (by decide)⟩

/-- Claim C5: starting a scan sets the registry to empty, the connected
device to none, and the detail state to none, whatever the prior state; the
registry then observed after any event sequence is the fold of the callback
over the empty registry, independent of the prior state. -/
theorem C5_scan_clears_state (s : BleState) (events : List ScanEvent) :
    (scanDevices s).devices = []
    ∧ (scanDevices s).connectedDevice = none
    ∧ (scanDevices s).deviceDetails = none
    ∧ (scanRun s events).devices = events.foldl onScanEvent []
    ∧ (scanRun s events).connectedDevice = none
    ∧ (scanRun s events).deviceDetails = none :=
  ⟨rfl, rfl, rfl, rfl, rfl, rfl⟩

/-- Claim C1 (code bug): the spec's race-prevention claim is the code's
evident intent — `setShouldReconnect(false)` is issued before the
disconnect precisely to keep `A`'s handler from scheduling a reconnect —
but the deferred React state write is not seen by the `handleDisconnect`
closure's guard, which reads the stale pre-call `shouldReconnect = true`.
At the failing input (connected to `"A"`, auto-reconnect enabled, counter
0), `switchToDevice "B"` therefore does schedule
`setTimeout(connectToDevice("A"), 2000)` inside its disconnect leg, with
every BLE call succeeding (first two conjuncts: the reconnect-to-A timer is
in the trace even though `B` ends up connected) and likewise with the
connect leg failing (last two conjuncts: the timer is in the trace and the
disconnect leg's increment is left in place). -/
theorem C1_stale_closure_schedules_reconnect :
    Ev.scheduleTimer 2000 (TimerAction.connectTo "A" 0)
        ∈ (switchToDevice fxSwitchOk "B" sConnectedA).2
    ∧ (switchToDevice fxSwitchOk "B" sConnectedA).1.connectedDevice = some "B"
    ∧ Ev.scheduleTimer 2000 (TimerAction.connectTo "A" 0)
        ∈ (switchToDevice fxAllFail "B" sConnectedA).2
    ∧ (switchToDevice fxAllFail "B" sConnectedA).1.reconnectAttempts = 1 := by
  refine ⟨by decide, by decide, by decide, by decide⟩

/-- Claim C2 counterexample: a user-initiated disconnect (the Disconnect
button invokes `handleDisconnect`) from a connected state with
auto-reconnect enabled and counter 0 increments the reconnect-attempt
counter to 1 — it is not reset to zero and it does increment. -/
theorem C2_counterexample :
    (handleDisconnect fxAllFail "A" sConnectedA).1.reconnectAttempts = 1
    ∧ (1 : Nat) ≠ 0 :=
  ⟨by decide, by decide⟩

/-- Claim C2 (amended): the counter is reset to zero exactly by a successful
connect attempt and is otherwise untouched by `connectToDevice`;
`handleDisconnect` — serving user-initiated and unsolicited disconnects
alike — increments it exactly when the cancel call succeeds, auto-reconnect
is enabled and the counter is below `MAX_RECONNECT_ATTEMPTS`, and never
resets it; and `switchToDevice`'s disconnect leg behaves exactly like
`handleDisconnect` on the pre-call state (the deferred
`setShouldReconnect(false)` is not seen by the handler closure's guard), so
a switch resets the counter to zero exactly when its connect leg succeeds,
and otherwise leaves in place whatever its disconnect leg did — including
that leg's increment. -/
theorem C2_amended_counter_dynamics (fx : Effects) (deviceId : String) (a : Nat) (s : BleState) :
    ((connectToDevice fx deviceId a s).1.reconnectAttempts
        = if fx.connectOk deviceId a then 0 else s.reconnectAttempts)
    ∧ ((handleDisconnect fx deviceId s).1.reconnectAttempts
        = if fx.cancelOk deviceId
              ∧ (s.shouldReconnect ∧ s.reconnectAttempts < MAX_RECONNECT_ATTEMPTS)
          then s.reconnectAttempts + 1 else s.reconnectAttempts)
    ∧ ((switchToDevice fx deviceId s).1.reconnectAttempts
        = if fx.connectOk deviceId 0 then 0
          else
            match s.connectedDevice with
            | some currentId =>
              if fx.cancelOk currentId
                  ∧ (s.shouldReconnect ∧ s.reconnectAttempts < MAX_RECONNECT_ATTEMPTS)
              then s.reconnectAttempts + 1 else s.reconnectAttempts
            | none => s.reconnectAttempts) := by
  refine ⟨?_, ?_, ?_⟩
  · cases hok : fx.connectOk deviceId a <;>
      cases hs : fx.services <;>
        simp [connectToDevice, hok, getServicesAndCharacteristics, hs]
  · cases hc : fx.cancelOk deviceId <;>
      by_cases hcond : (s.shouldReconnect = true ∧ s.reconnectAttempts < MAX_RECONNECT_ATTEMPTS) <;>
        simp [handleDisconnect, hc, hcond]
  · cases hcd : s.connectedDevice with
    | none =>
      cases hok : fx.connectOk deviceId 0 <;>
        cases hs : fx.services <;>
          simp [switchToDevice, hcd, connectToDevice, hok, getServicesAndCharacteristics, hs]
    | some cid =>
      cases hok : fx.connectOk deviceId 0 <;>
        cases hs : fx.services <;>
          cases hc : fx.cancelOk cid <;>
            by_cases hcond :
                (s.shouldReconnect = true ∧ s.reconnectAttempts < MAX_RECONNECT_ATTEMPTS) <;>
              simp [switchToDevice, hcd, connectToDevice, hok,
                getServicesAndCharacteristics, hs, handleDisconnect, hc, hcond]

/-- Claim C3: when every underlying connect/discover attempt fails, a
`connect(deviceId)` call makes exactly 3 attempts, each retry firing 2000 ms
after the previous failure (start times `t`, `t + 2000`, `t + 4000`); the
third attempt's trace schedules no further timer; and the final state equals
the initial state except that `isConnecting` is false — no terminal error
state exists. `fuel ≥ 3` shows the replay bound does not cut the chain
short: the chain stops by itself. -/
theorem C3_bounded_retries (fx : Effects) (deviceId : String) (t : Nat) (s : BleState)
    (fuel : Nat) (hfail : ∀ d a, fx.connectOk d a = false) (hfuel : 3 ≤ fuel) :
    connectTimeline fx fuel deviceId 0 t s =
      ([(t, [Ev.setIsConnecting true, Ev.bleConnectAttempt deviceId false,
             Ev.scheduleTimer 2000 (TimerAction.connectTo deviceId 1),
             Ev.setIsConnecting false]),
        (t + 2000, [Ev.setIsConnecting true, Ev.bleConnectAttempt deviceId false,
             Ev.scheduleTimer 2000 (TimerAction.connectTo deviceId 2),
             Ev.setIsConnecting false]),
        (t + 2000 + 2000, [Ev.setIsConnecting true, Ev.bleConnectAttempt deviceId false,
             Ev.setIsConnecting false])],
       { s with isConnecting := false }) := by
  obtain ⟨k, rfl⟩ : ∃ k, fuel = k + 1 + 1 + 1 := ⟨fuel - 3, by omega⟩
  simp [connectTimeline, connectToDevice, scheduledRetry, hfail,
    RECONNECT_DELAY_MS, MAX_RECONNECT_ATTEMPTS]

/-- Witness for C3: the all-fail oracle, fuel 5, start time 0. -/
theorem C3_bounded_retries_witness :
    (∀ d a, fxAllFail.connectOk d a = false) ∧ 3 ≤ 5
    ∧ connectTimeline fxAllFail 5 "dev" 0 0 sInit =
      ([(0, [Ev.setIsConnecting true, Ev.bleConnectAttempt "dev" false,
             Ev.scheduleTimer 2000 (TimerAction.connectTo "dev" 1),
             Ev.setIsConnecting false]),
        (0 + 2000, [Ev.setIsConnecting true, Ev.bleConnectAttempt "dev" false,
             Ev.scheduleTimer 2000 (TimerAction.connectTo "dev" 2),
             Ev.setIsConnecting false]),
        (0 + 2000 + 2000, [Ev.setIsConnecting true, Ev.bleConnectAttempt "dev" false,
             Ev.setIsConnecting false])],
       { sInit with isConnecting := false }) :=
  ⟨fun _ _ => rfl, by decide,
    C3_bounded_retries fxAllFail "dev" 0 sInit 5 (fun _ _ => rfl) (by decide)⟩

/-- Claim C8: every `connectToDevice` attempt's trace starts by setting
`isConnecting` to true, ends by setting it to false, and never touches
`isConnecting` in between — so the flag is true for the duration of the
attempt; and the state an attempt leaves behind (the state holding between
staggered retries and after the final failed attempt) has `isConnecting`
false. -/
theorem C8_isConnecting_per_attempt (fx : Effects) (deviceId : String) (a : Nat)
    (s : BleState) :
    (∃ mid, (connectToDevice fx deviceId a s).2
        = Ev.setIsConnecting true :: (mid ++ [Ev.setIsConnecting false])
      ∧ mid.all notSetIsConnecting = true)
    ∧ (connectToDevice fx deviceId a s).1.isConnecting = false := by
  constructor
  · cases hok : fx.connectOk deviceId a
    · by_cases hr : a < MAX_RECONNECT_ATTEMPTS - 1
      · exact ⟨[Ev.bleConnectAttempt deviceId false,
          Ev.scheduleTimer RECONNECT_DELAY_MS (TimerAction.connectTo deviceId (a + 1))],
          by simp [connectToDevice, hok, hr], by simp [notSetIsConnecting]⟩
      · exact ⟨[Ev.bleConnectAttempt deviceId false],
          by simp [connectToDevice, hok, hr], by simp [notSetIsConnecting]⟩
    · cases hs : fx.services with
      | none =>
        exact ⟨[Ev.bleConnectAttempt deviceId true, Ev.setConnectedDevice (some deviceId),
          Ev.stopScan, Ev.setReconnectAttempts 0],
          by simp [connectToDevice, hok, getServicesAndCharacteristics, hs],
          by simp [notSetIsConnecting]⟩
      | some svcs =>
        exact ⟨[Ev.bleConnectAttempt deviceId true, Ev.setConnectedDevice (some deviceId),
          Ev.stopScan,
          Ev.setDeviceDetails (some
            { services := svcs,
              characteristics :=
                some (svcs.map (fun sv => (sv.uuid, (fx.chars sv.uuid).getD []))) }),
          Ev.setReconnectAttempts 0],
          by simp [connectToDevice, hok, getServicesAndCharacteristics, hs],
          by simp [notSetIsConnecting]⟩
  · cases hok : fx.connectOk deviceId a <;>
      cases hs : fx.services <;>
        simp [connectToDevice, hok, getServicesAndCharacteristics, hs]

/-- Looking up a service uuid in the map built over the service list yields
the image of that uuid. -/
lemma lookup_map_uuid (f : String → List Characteristic) :
    ∀ (svcs : List Service) (sv : Service), sv ∈ svcs →
      (svcs.map (fun x => (x.uuid, f x.uuid))).lookup sv.uuid = some (f sv.uuid) := by
  intro svcs
  induction svcs with
  | nil => intro sv h; cases h
  | cons x rest ih =>
    intro sv hmem
    by_cases hq : sv.uuid = x.uuid
    · simp [List.lookup, hq]
    · rcases List.mem_cons.mp hmem with heq | htail
      · exact absurd (congrArg Service.uuid heq) hq
      · have hb : (sv.uuid == x.uuid) = false := beq_eq_false_iff_ne.mpr hq
        simp [List.lookup, hb, ih sv htail]

/-- Claim C6: whenever `device.services()` succeeds, the detail fetch always
completes and stores a detail whose map sends every discovered service's
uuid to its characteristic list — the empty list when that service's
characteristic discovery failed, the discovered list when it succeeded; a
per-service failure never aborts the fetch. -/
theorem C6_per_service_isolation (fx : Effects) (s : BleState) (svcs : List Service)
    (h : fx.services = some svcs) :
    ∃ cmap,
      (getServicesAndCharacteristics fx s).1.deviceDetails
          = some { services := svcs, characteristics := some cmap }
      ∧ (getServicesAndCharacteristics fx s).2
          = [Ev.setDeviceDetails (some { services := svcs, characteristics := some cmap })]
      ∧ ∀ sv ∈ svcs,
          cmap.lookup sv.uuid = some ((fx.chars sv.uuid).getD [])
          ∧ (fx.chars sv.uuid = none → cmap.lookup sv.uuid = some [])
          ∧ ∀ cs, fx.chars sv.uuid = some cs → cmap.lookup sv.uuid = some cs := by
  refine ⟨svcs.map (fun sv => (sv.uuid, (fx.chars sv.uuid).getD [])), ?_, ?_, ?_⟩
  · simp [getServicesAndCharacteristics, h]
  · simp [getServicesAndCharacteristics, h]
  · intro sv hsv
    have hl := lookup_map_uuid (fun u => (fx.chars u).getD []) svcs sv hsv
    refine ⟨hl, ?_, ?_⟩
    · intro hn; rw [hl]; simp [hn]
    · intro cs hcs; rw [hl]; simp [hcs]

/-- Witness for C6: two services, discovery failing for `"S1"` and
succeeding for `"S2"`. -/
theorem C6_per_service_isolation_witness :
    fxTwoServices.services = some [{ uuid := "S1" }, { uuid := "S2" }]
    ∧ ∃ cmap,
      (getServicesAndCharacteristics fxTwoServices sInit).1.deviceDetails
          = some { services := [{ uuid := "S1" }, { uuid := "S2" }],
                   characteristics := some cmap }
      ∧ (getServicesAndCharacteristics fxTwoServices sInit).2
          = [Ev.setDeviceDetails (some { services := [{ uuid := "S1" }, { uuid := "S2" }],
                                         characteristics := some cmap })]
      ∧ ∀ sv ∈ [({ uuid := "S1" } : Service), { uuid := "S2" }],
          cmap.lookup sv.uuid = some ((fxTwoServices.chars sv.uuid).getD [])
          ∧ (fxTwoServices.chars sv.uuid = none → cmap.lookup sv.uuid = some [])
          ∧ ∀ cs, fxTwoServices.chars sv.uuid = some cs → cmap.lookup sv.uuid = some cs :=
  ⟨rfl, C6_per_service_isolation fxTwoServices sInit [{ uuid := "S1" }, { uuid := "S2" }] rfl⟩

/-- Claim C7: the battery computation finds service `180F` and
characteristic `2A19` and parses the value as hexadecimal — value `"64"`
gives 100; a missing detail object, service entry, characteristic, or value
gives `none` (rendered "not available"), never an error. -/
theorem C7_battery_parse (svcs : List Service)
    (cmap : List (String × List Characteristic)) (bchars : List Characteristic)
    (c : Characteristic) :
    (cmap.lookup "180F" = some bchars →
      bchars.find? (fun ch => ch.uuid == "2A19") = some c →
      c.value = some "64" →
      getBatteryLevel (some { services := svcs, characteristics := some cmap }) = some 100)
    ∧ getBatteryLevel none = none
    ∧ getBatteryLevel (some { services := svcs, characteristics := none }) = none
    ∧ (cmap.lookup "180F" = none →
      getBatteryLevel (some { services := svcs, characteristics := some cmap }) = none)
    ∧ (cmap.lookup "180F" = some bchars →
      bchars.find? (fun ch => ch.uuid == "2A19") = none →
      getBatteryLevel (some { services := svcs, characteristics := some cmap }) = none)
    ∧ (cmap.lookup "180F" = some bchars →
      bchars.find? (fun ch => ch.uuid == "2A19") = some c →
      c.value = none →
      getBatteryLevel (some { services := svcs, characteristics := some cmap }) = none) := by
  refine ⟨?_, rfl, rfl, ?_, ?_, ?_⟩
  · intro h1 h2 h3
    simp only [getBatteryLevel, h1, h2, h3]
    decide
  · intro h1; simp [getBatteryLevel, h1]
  · intro h1 h2; simp [getBatteryLevel, h1, h2]
  · intro h1 h2 h3; simp [getBatteryLevel, h1, h2, h3]

/-- Witness for C7: the concrete `ddBattery` detail gives 100, and the
service-absent detail gives `none`. -/
theorem C7_battery_parse_witness :
    getBatteryLevel (some ddBattery) = some 100
    ∧ getBatteryLevel none = none :=
  ⟨(C7_battery_parse [{ uuid := "180F" }] [("180F", [{ uuid := "2A19", value := some "64" }])]
      [{ uuid := "2A19", value := some "64" }] { uuid := "2A19", value := some "64" }).1
      (by decide) (by decide) rfl,
    (C7_battery_parse [] [] [] { uuid := "", value := none }).2.1⟩

/-- Claim C9: a battery characteristic that parses to the integer 0 renders
exactly like an absent battery level: the display condition
`batteryLevel ? ... : "NA"` treats 0 as absent, so both show `"NA"`. -/
theorem C9_zero_battery_renders_NA (d : Option DeviceDetails)
    (h : getBatteryLevel d = some 0) :
    batteryDisplay (getBatteryLevel d) = "NA" ∧ batteryDisplay none = "NA" := by
  rw [h]; exact ⟨rfl, rfl⟩

/-- Witness for C9: the concrete detail whose battery value string is `"0"`. -/
theorem C9_zero_battery_renders_NA_witness :
    getBatteryLevel (some ddBatteryZero) = some 0
    ∧ batteryDisplay (getBatteryLevel (some ddBatteryZero)) = "NA"
    ∧ batteryDisplay none = "NA" :=
  ⟨by decide, (C9_zero_battery_renders_NA (some ddBatteryZero) (by decide)).1,
    (C9_zero_battery_renders_NA (some ddBatteryZero) (by decide)).2⟩

/-- Claim C10 counterexample: with `rssi = -60` and `txPowerLevel = 4` the
ratio is `-15 < 1`, so the first branch returns
`(-15) ^ 10 = 576650390625` metres — far above 1000 m — because the
1000 m cutoff exists only in the `ratio >= 1` branch. (`powR` is irrelevant
here; the branch taken uses the exact tenth power.) -/
theorem C10_counterexample :
    calculateDistance (fun _ => 0) (some (-60)) (some 4)
        = DistanceResult.dist 576650390625
    ∧ (1000 : ℚ) < 576650390625 := by
  constructor
  · have hbranch : calculateDistance (fun _ => 0) (some (-60)) (some 4)
        = DistanceResult.dist (toFixed2 (((-60 : ℚ) / 4) ^ 10)) := by
      unfold calculateDistance
      norm_num
    have hval : toFixed2 (((-60 : ℚ) / 4) ^ 10) = 576650390625 := by
      have h100 : (((-60 : ℚ) / 4) ^ 10) * 100 = ((57665039062500 : ℤ) : ℚ) := by
        norm_num
      unfold toFixed2
      rw [h100, round_intCast]
      norm_num
    rw [hbranch, hval]
  · norm_num

/-- Claim C10 (amended): `calculateDistance` returns Unknown when `rssi` is
null, `0`, below `-100` or above `0`; it substitutes `-59` for a null
`txPowerLevel`; in the `ratio >= 1` branch it applies the
`0.89976 * ratio ^ 7.7095 + 0.111` formula and returns Unknown instead of
any distance above 1000 m, so distances returned by that branch never
exceed 1000 m; but in the `ratio < 1` branch it returns the rounded tenth
power `(rssi/txPower) ^ 10` with no 1000 m cap, so the function as a whole
can return distances above 1000 m. -/
theorem C10_amended_distance (powR : ℚ → ℚ) (r : ℚ) (tx : Option ℚ) :
    calculateDistance powR none tx = DistanceResult.unknown
    ∧ calculateDistance powR (some 0) tx = DistanceResult.unknown
    ∧ ((r < -100 ∨ 0 < r) → calculateDistance powR (some r) tx = DistanceResult.unknown)
    ∧ (r ≠ 0 → ¬(r < -100 ∨ 0 < r) →
        (r / tx.getD defaultTxPower < 1 →
          calculateDistance powR (some r) tx
            = DistanceResult.dist (toFixed2 ((r / tx.getD defaultTxPower) ^ 10)))
        ∧ (¬(r / tx.getD defaultTxPower < 1) →
            ∀ q, calculateDistance powR (some r) tx = DistanceResult.dist q →
              q ≤ 1000)) := by
  refine ⟨rfl, by simp [calculateDistance], ?_, ?_⟩
  · intro hout
    have hne : ¬(r = 0) := by
      intro he
      subst he
      rcases hout with h1 | h2
      · norm_num at h1
      · norm_num at h2
    simp [calculateDistance, hne, hout]
  · intro hne hin
    constructor
    · intro hlt
      simp [calculateDistance, hne, hin, hlt]
    · intro hge q heq
      by_cases hcap :
          (1000 : ℚ) < toFixed2 (89976 / 100000 * powR (r / tx.getD defaultTxPower) + 111 / 1000)
      · exfalso
        simp [calculateDistance, hne, hin, hge, hcap] at heq
      · have : q = toFixed2 (89976 / 100000 * powR (r / tx.getD defaultTxPower) + 111 / 1000) := by
          have := heq
          simp [calculateDistance, hne, hin, hge, hcap] at this
          exact this.symm
        rw [this]
        exact le_of_not_lt hcap

/-- Witness for C10 (amended): out-of-range `rssi = -120` gives Unknown; and
in the capped branch (`rssi = -60`, default tx power, `powR` forced large)
the result is Unknown rather than a distance above 1000. -/
theorem C10_amended_distance_witness :
    ((-120 : ℚ) < -100 ∨ (0 : ℚ) < -120)
    ∧ calculateDistance (fun _ => 0) (some (-120)) none = DistanceResult.unknown :=
  ⟨Or.inl (by norm_num),
    (C10_amended_distance (fun _ => 0) (-120) none).2.2.1 (Or.inl (by norm_num))⟩

end BleFinder
